import Mathlib

/-!
Verification development for the ARMi natural-language action interpreter
(`services/AIService.ts` and `app/(tabs)/add.tsx`).

Embedding conventions:
- JavaScript timestamp strings are modelled by `IsoStr`: `valid ms` stands for
  a string that `new Date(s)` parses to `ms` milliseconds since the Unix epoch
  (`toISOString` of a valid `Date` produces such a string), and `invalid s`
  stands for a string for which parsing yields `NaN`.
- JavaScript numbers that carry interpreter confidences are modelled as
  rationals.
- Asynchronous external collaborators (the LLM backend, the database, the
  notification scheduler) are modelled by explicit outcome parameters: the
  functions under verification are deterministic in those outcomes, exactly
  mirroring the source control flow.
- A JavaScript `throw` caught by an enclosing `try` is modelled with `Except`;
  functions whose source catches every error are total.
-/

namespace ARMi

/-- Milliseconds in one day, the bump used by `ensureFutureISO`
(`24 * 60 * 60 * 1000 = 86400000`). -/
def msPerDay : Int := 86400000

/-- Model of a JavaScript string in timestamp position: `valid ms` is a string
parsed by `new Date` to the instant `ms` (milliseconds since epoch), `invalid s`
is a string whose parse is `NaN`. -/
inductive IsoStr where
  | valid (ms : Int)
  | invalid (s : String)
  deriving DecidableEq, Repr

/-- Result of `new Date(s).getTime()`: `some ms` when the string parses,
`none` when it is `NaN`. -/
def parseMs : IsoStr → Option Int
  | .valid ms => some ms
  | .invalid _ => none

/-- JavaScript truthiness of the underlying string: a string that parses as a
date is nonempty, hence truthy; an unparseable string is falsy exactly when
empty. -/
def isoTruthy : IsoStr → Bool
  | .valid _ => true
  | .invalid s => !s.isEmpty

/-- Characters dropped from the front while whitespace (helper for the model
of `String.prototype.trim`). -/
def dropLeadingWs : List Char → List Char
  | [] => []
  | c :: cs => if c.isWhitespace then dropLeadingWs cs else c :: cs

/-- Model of JavaScript `s.trim()`: drop whitespace from both ends. -/
def jsTrim (s : String) : String :=
  ⟨(dropLeadingWs (dropLeadingWs s.data).reverse).reverse⟩

/-- Model of JavaScript `s.toLowerCase()` (ASCII case folding). -/
def jsToLower (s : String) : String := ⟨s.data.map Char.toLower⟩

/-- Model of JavaScript `s.includes(pat)`: substring containment. -/
def jsIncludes (s pat : String) : Bool := decide (pat.toList <:+: s.toList)

/-- JavaScript `s.trim()` nonemptiness of the underlying string (a parseable
date string never trims to empty). -/
def isoTrimNonempty : IsoStr → Bool
  | .valid _ => true
  | .invalid s => !((jsTrim s).isEmpty)

/-- Embedding of `ensureFutureISO(iso, nowUtcISO)` from `services/AIService.ts`:
parse both strings; if `iso` does not parse, return it unchanged; if
`dt <= now` (a comparison that is false whenever `now` is `NaN`), return
`new Date(dt + 24h).toISOString()`; otherwise return `iso` unchanged. -/
def ensureFutureISO (iso : IsoStr) (nowUtcISO : IsoStr) : IsoStr :=
  match parseMs iso with
  | none => iso
  | some dtMs =>
    match parseMs nowUtcISO with
    | none => iso
    | some nowMs =>
      if dtMs ≤ nowMs then .valid (dtMs + msPerDay) else iso

/-- UTC calendar-day index of an instant (days since epoch, floor division:
this is the calendar day a civil-from-days conversion starts from). -/
def utcDayIndex (ms : Int) : Int := ms / msPerDay

/-- UTC wall-clock time of day of an instant (milliseconds past UTC
midnight). -/
def utcTimeOfDay (ms : Int) : Int := ms % msPerDay

/-- Boolean marking the inputs on which `ensureFutureISO` would bump to a value
that is still not in the future: both strings parse and the parsed timestamp is
at least one day before `now`. -/
def staleBump (iso nowUtcISO : IsoStr) : Bool :=
  match parseMs iso, parseMs nowUtcISO with
  | some dtMs, some nowMs => decide (dtMs + msPerDay ≤ nowMs)
  | _, _ => false

/-- Claim C1 (corrected form). For every parseable timestamp `t` and parseable
instant `now`: when `t ≤ now`, `ensureFutureISO` returns the timestamp shifted
forward by exactly one calendar day at the same UTC wall-clock time, and the
returned value is strictly greater than `now` precisely when `t` lies less than
one day before `now`; when `t > now` the timestamp is returned unchanged. (The
original claim asserted the bumped value is strictly greater than `now`
unconditionally, which fails when `t` is a day or more in the past.) -/
theorem C1_ensureFuture_behavior (t now : Int) :
    (t ≤ now →
      ensureFutureISO (.valid t) (.valid now) = .valid (t + msPerDay)
      ∧ utcDayIndex (t + msPerDay) = utcDayIndex t + 1
      ∧ utcTimeOfDay (t + msPerDay) = utcTimeOfDay t
      ∧ (now < t + msPerDay ↔ now - t < msPerDay))
    ∧ (now < t → ensureFutureISO (.valid t) (.valid now) = .valid t) := by
  constructor
  · intro hle
    refine ⟨?_, ?_, ?_, ?_⟩
    · simp [ensureFutureISO, parseMs, hle]
    · simp only [utcDayIndex, msPerDay]
      omega
    · simp only [utcTimeOfDay, msPerDay]
      omega
    · simp only [msPerDay]
      omega
  · intro hlt
    have : ¬ (t ≤ now) := by omega
    simp [ensureFutureISO, parseMs, this]

/-- Witness for C1 at `t = now`: the bump fires, lands one calendar day later
at the same wall-clock time, and is strictly in the future. -/
theorem C1_ensureFuture_behavior_witness :
    ensureFutureISO (.valid 0) (.valid 0) = .valid msPerDay
    ∧ utcDayIndex msPerDay = utcDayIndex 0 + 1
    ∧ utcTimeOfDay msPerDay = utcTimeOfDay 0
    ∧ ((0 : Int) < 0 + msPerDay ↔ (0 : Int) - 0 < msPerDay) := by
  have h := (C1_ensureFuture_behavior 0 0).1 (le_refl 0)
  simpa using h

/-- Counterexample to C1 as stated: with `t` two days before `now`
(`t = 0`, `now = 172800000`), the adjustment branch fires but the returned
value `86400000` is still not strictly greater than `now`. -/
theorem C1_counterexample :
    ensureFutureISO (.valid 0) (.valid 172800000) = .valid 86400000
    ∧ ¬ ((172800000 : Int) < 86400000) := by
  constructor
  · simp [ensureFutureISO, parseMs, msPerDay]
  · omega

/-- Claim C9 (confirmed). For every string that does not parse as a valid
timestamp, `ensureFutureISO` returns it unchanged, for every `now`. -/
theorem C9_unparseable_unchanged (s : String) (now : IsoStr) :
    ensureFutureISO (.invalid s) now = .invalid s := by
  simp [ensureFutureISO, parseMs]

/-- Claim C6 (corrected form). Applying `ensureFutureISO` a second time to its
own output is a no-op whenever it is not the case that both inputs parse with
the timestamp at least one day before `now` (equivalently: whenever the first
application's output is unparseable or strictly after `now`). The original
unconditional claim fails for timestamps a day or more in the past, where the
single bump still lands at or before `now` and a second application bumps
again. -/
theorem C6_ensureFuture_idempotent (t now : IsoStr) (h : staleBump t now = false) :
    ensureFutureISO (ensureFutureISO t now) now = ensureFutureISO t now := by
  cases t with
  | invalid s => simp [ensureFutureISO, parseMs]
  | valid tms =>
    cases now with
    | invalid s => simp [ensureFutureISO, parseMs]
    | valid nowms =>
      simp only [staleBump, parseMs, decide_eq_false_iff_not, not_le] at h
      by_cases hle : tms ≤ nowms
      · have hgt : ¬ (tms + msPerDay ≤ nowms) := by omega
        simp [ensureFutureISO, parseMs, hle, hgt]
      · simp [ensureFutureISO, parseMs, hle]

/-- Witness for C6 at `t = now = 0`: the bump lands strictly in the future and
the second application leaves it unchanged. -/
theorem C6_ensureFuture_idempotent_witness :
    ensureFutureISO (ensureFutureISO (.valid 0) (.valid 0)) (.valid 0)
      = ensureFutureISO (.valid 0) (.valid 0) :=
  C6_ensureFuture_idempotent (.valid 0) (.valid 0) (by decide)

/-- Counterexample to C6 as stated: with `t = 0` and `now = 172800000` (two
days later), one application yields `86400000` and a second application bumps
again to `172800000`, so the double application differs from the single one. -/
theorem C6_counterexample :
    ensureFutureISO (ensureFutureISO (.valid 0) (.valid 172800000)) (.valid 172800000)
      ≠ ensureFutureISO (.valid 0) (.valid 172800000) := by
  decide

/-- Intent labels of `ParsedMain` in `services/AIService.ts`. -/
inductive Intent where
  | create_profile
  | update_profile
  | create_reminder
  | schedule_text
  | multi_action
  | clarify
  deriving DecidableEq, Repr

/-- Action type labels of the `actions` array in `ParsedMain`. -/
inductive ActionType where
  | create_profile
  | update_profile
  | create_reminder
  | schedule_text
  deriving DecidableEq, Repr

/-- Payload of one action (`data: Record<string, any>` restricted to the keys
the prompt schema and the executor use; `none` models a JSON `null` or an
absent key). -/
structure ActionData where
  name : Option String := none
  age : Option Int := none
  relationship : Option String := none
  job : Option String := none
  tags : Option (List String) := none
  parents : Option (List String) := none
  kids : Option (List String) := none
  siblings : Option (List String) := none
  likes : Option (List String) := none
  dislikes : Option (List String) := none
  interests : Option (List String) := none
  title : Option String := none
  description : Option String := none
  reminderType : Option String := none
  scheduledFor : Option IsoStr := none
  profileId : Option Int := none
  phoneNumber : Option String := none
  message : Option String := none
  photoUri : Option String := none
  deriving DecidableEq, Repr

/-- One element of the `actions` array. -/
structure Action where
  type : ActionType
  data : ActionData
  deriving DecidableEq, Repr

/-- Embedding of the `ParsedMain` result type (confidence, a JavaScript
number, is modelled as a rational). -/
structure ParsedMain where
  intent : Intent
  confidence : Rat
  actions : List Action
  response : String
  clarification : Option String := none
  usedCurrentDatetime : Option IsoStr := none
  note : Option String := none
  deriving DecidableEq, Repr

/-- Reminder follow-up action labels of `ParsedReminder`. -/
inductive ReminderAction where
  | create
  | cancel
  | clarify
  deriving DecidableEq, Repr

/-- Embedding of the `ParsedReminder` result type. -/
structure ParsedReminder where
  action : ReminderAction
  title : Option String := none
  description : Option String := none
  type : String := "general"
  scheduledFor : Option IsoStr := none
  response : String
  usedCurrentDatetime : Option IsoStr := none
  note : Option String := none
  deriving DecidableEq, Repr

/-- JavaScript truthiness of an optional string (`undefined`, `null` and the
empty string are falsy). -/
def jsStrTruthy : Option String → Bool
  | some s => !s.isEmpty
  | none => false

/-- JavaScript `a || b` on an optional timestamp string, as in
`devSimulatedNowISO || nowIsoUtc()`. -/
def orFalsyIso (o : Option IsoStr) (d : IsoStr) : IsoStr :=
  match o with
  | some s => if isoTruthy s then s else d
  | none => d

/-- Embedding of `nowIsoUtc()`: `new Date().toISOString()` always produces a
parseable string for the current system instant. -/
def nowIsoUtc (sysNowMs : Int) : IsoStr := .valid sysNowMs

/-- Embedding of `mockAdvancedResponse(inputText)`: the offline fallback
interpretation (the source ignores its argument). -/
def mockAdvancedResponse (inputText : String) : ParsedMain :=
  { intent := .clarify
    confidence := 0
    actions := []
    response := "I\x27m having trouble understanding your request right now. This might be due to a connection issue or the AI service being temporarily unavailable."
    clarification := some "Could you please try rephrasing your request? For example:\n• \"Add Sarah to my contacts\"\n• \"Remind me to call mom tomorrow\"\n• \"Schedule a text to John saying happy birthday\"" }

/-- Embedding of `mockReminderResponse(_inputText, _context)`: permissive
fallback scheduling 24 hours out from the system clock. -/
def mockReminderResponse (inputText context : String) (sysNowMs : Int) : ParsedReminder :=
  { action := .create
    title := some "Mock Reminder"
    description := some "This is a mock reminder response"
    type := "general"
    scheduledFor := some (.valid (sysNowMs + msPerDay))
    response := "Mock reminder created successfully!" }

/-- Fallback value handed to `safeJson` in `processInteraction` when the
backend body is not valid JSON. -/
def safeJsonMainFallback (current : IsoStr) : ParsedMain :=
  { intent := .clarify
    confidence := 0
    actions := []
    response := "I\x27m not sure yet."
    clarification := some "Please rephrase."
    usedCurrentDatetime := some current }

/-- Fallback value handed to `safeJson` in `processReminderResponse`. -/
def safeJsonReminderFallback (current : IsoStr) : ParsedReminder :=
  { action := .clarify
    title := none
    description := none
    type := "general"
    scheduledFor := none
    response := "Please clarify."
    usedCurrentDatetime := some current
    note := none }

/-- The note fragment appended on a roll-forward, prefixed by the existing note
plus a space when that note is truthy (`parsed.note ? parsed.note + ' ' : ''`). -/
def appendRollNote (old : Option String) : String :=
  (if jsStrTruthy old then old.getD "" ++ " " else "")
    ++ "Rolled past time forward to keep it in the future."

/-- Post-processing of one action in `processInteraction`: when `data.scheduledFor`
is a string with nonempty trim, replace it by `ensureFutureISO` of it and report
whether the value changed (`after !== before`). -/
def bumpScheduledFor (current : IsoStr) (a : Action) : Action × Bool :=
  match a.data.scheduledFor with
  | some s =>
    if isoTrimNonempty s then
      let after := ensureFutureISO s current
      if after ≠ s then
        ({ a with data := { a.data with scheduledFor := some after } }, true)
      else (a, false)
    else (a, false)
  | none => (a, false)

/-- The `parsed.actions.map(...)` post-processing loop together with the
`noteAdded` flag (the `parsed.actions?.length` guard is a no-op here because an
empty list maps to itself with no flag set). -/
def bumpAllScheduledFor (current : IsoStr) (as : List Action) : List Action × Bool :=
  ((as.map (bumpScheduledFor current)).map Prod.fst,
   (as.map (bumpScheduledFor current)).any Prod.snd)

/-- Outcome of the backend call in `processInteraction`: the call threw, it
returned an empty body (`raw` falsy, which the source turns into a thrown
error), or it returned a body whose JSON parse is modelled directly (`none`
when `JSON.parse` fails). -/
inductive CallOutcome where
  | threw
  | rawEmpty
  | rawJson (parsed : Option ParsedMain)

/-- Outcome of the backend call in `processReminderResponse`. -/
inductive CallOutcomeR where
  | threw
  | rawEmpty
  | rawJson (parsed : Option ParsedReminder)

/-- Body of the `try` block of `processInteraction` (`userTz` only enters the
prompt text, which the embedding does not inspect; the environment credential
check that populates the module-level client is the boolean
`openaiConfigured`). -/
def processInteractionTry (openaiConfigured : Bool) (outcome : CallOutcome)
    (inputText : String) (userTz : Option String) (devSimulatedNowISO : Option IsoStr)
    (sysNowMs : Int) : Except String ParsedMain :=
  if !openaiConfigured then
    .ok { mockAdvancedResponse inputText with usedCurrentDatetime := some (nowIsoUtc sysNowMs) }
  else
    let currentDatetimeUtc := orFalsyIso devSimulatedNowISO (nowIsoUtc sysNowMs)
    match outcome with
    | .threw => .error "OpenAI request failed"
    | .rawEmpty => .error "No response from OpenAI"
    | .rawJson parsedOpt =>
      let parsed := parsedOpt.getD (safeJsonMainFallback currentDatetimeUtc)
      let pp := bumpAllScheduledFor currentDatetimeUtc parsed.actions
      let base := { parsed with
        actions := pp.1
        usedCurrentDatetime := some currentDatetimeUtc }
      .ok (if pp.2 then { base with note := some (appendRollNote base.note) } else base)

/-- Embedding of `AIServiceClass.processInteraction`: the enclosing `catch`
converts every thrown error into the mock response stamped with the system
clock, so the function is total (it never throws to its caller). -/
def processInteraction (openaiConfigured : Bool) (outcome : CallOutcome)
    (inputText : String) (userTz : Option String) (devSimulatedNowISO : Option IsoStr)
    (sysNowMs : Int) : ParsedMain :=
  match processInteractionTry openaiConfigured outcome inputText userTz devSimulatedNowISO sysNowMs with
  | .ok r => r
  | .error _ =>
    { mockAdvancedResponse inputText with usedCurrentDatetime := some (nowIsoUtc sysNowMs) }

/-- Body of the `try` block of `processReminderResponse` (the prior-suggestion
context only enters the prompt text). -/
def processReminderResponseTry (openaiConfigured : Bool) (outcome : CallOutcomeR)
    (inputText context : String) (userTz : Option String) (devSimulatedNowISO : Option IsoStr)
    (sysNowMs : Int) : Except String ParsedReminder :=
  if !openaiConfigured then
    .ok { mockReminderResponse inputText context sysNowMs with
          usedCurrentDatetime := some (nowIsoUtc sysNowMs) }
  else
    let currentDatetimeUtc := orFalsyIso devSimulatedNowISO (nowIsoUtc sysNowMs)
    match outcome with
    | .threw => .error "OpenAI request failed"
    | .rawEmpty => .error "No response from OpenAI"
    | .rawJson parsedOpt =>
      let parsed := parsedOpt.getD (safeJsonReminderFallback currentDatetimeUtc)
      let parsed :=
        match parsed.scheduledFor with
        | some s =>
          if isoTrimNonempty s then
            let after := ensureFutureISO s currentDatetimeUtc
            if after ≠ s then
              { parsed with scheduledFor := some after, note := some (appendRollNote parsed.note) }
            else parsed
          else parsed
        | none => parsed
      .ok { parsed with usedCurrentDatetime := some currentDatetimeUtc }

/-- Embedding of `AIServiceClass.processReminderResponse`: like
`processInteraction`, the enclosing `catch` makes it total. -/
def processReminderResponse (openaiConfigured : Bool) (outcome : CallOutcomeR)
    (inputText context : String) (userTz : Option String) (devSimulatedNowISO : Option IsoStr)
    (sysNowMs : Int) : ParsedReminder :=
  match processReminderResponseTry openaiConfigured outcome inputText context userTz devSimulatedNowISO sysNowMs with
  | .ok r => r
  | .error _ =>
    { mockReminderResponse inputText context sysNowMs with
      usedCurrentDatetime := some (nowIsoUtc sysNowMs) }

/-- Updating only the note of a `ParsedMain` leaves the other fields alone. -/
theorem parsedMain_note_update_fields (b : Bool) (x : ParsedMain) (n : Option String) :
    ((if b then { x with note := n } else x) : ParsedMain).intent = x.intent
    ∧ ((if b then { x with note := n } else x) : ParsedMain).confidence = x.confidence
    ∧ ((if b then { x with note := n } else x) : ParsedMain).actions = x.actions
    ∧ ((if b then { x with note := n } else x) : ParsedMain).clarification = x.clarification
    ∧ ((if b then { x with note := n } else x) : ParsedMain).usedCurrentDatetime = x.usedCurrentDatetime := by
  cases b <;> simp

/-- Claim C3 (confirmed). Whenever the backend is unconfigured or its call
fails (no client, thrown error, empty response body), `processInteraction`
returns intent `clarify`, confidence `0`, an empty actions list, and the mock
clarification enumerating example phrasings; the function is total, so no
error ever reaches the caller. -/
theorem C3_backend_failure_clarify (openaiConfigured : Bool) (outcome : CallOutcome)
    (inputText : String) (userTz : Option String) (devSimulatedNowISO : Option IsoStr)
    (sysNowMs : Int)
    (h : openaiConfigured = false ∨ outcome = .threw ∨ outcome = .rawEmpty) :
    (processInteraction openaiConfigured outcome inputText userTz devSimulatedNowISO sysNowMs).intent = .clarify
    ∧ (processInteraction openaiConfigured outcome inputText userTz devSimulatedNowISO sysNowMs).confidence = 0
    ∧ (processInteraction openaiConfigured outcome inputText userTz devSimulatedNowISO sysNowMs).actions = []
    ∧ (processInteraction openaiConfigured outcome inputText userTz devSimulatedNowISO sysNowMs).clarification
        = some "Could you please try rephrasing your request? For example:\n• \"Add Sarah to my contacts\"\n• \"Remind me to call mom tomorrow\"\n• \"Schedule a text to John saying happy birthday\"" := by
  rcases h with h | h | h
  · subst h
    simp [processInteraction, processInteractionTry, mockAdvancedResponse]
  · subst h
    cases openaiConfigured <;>
      simp [processInteraction, processInteractionTry, mockAdvancedResponse]
  · subst h
    cases openaiConfigured <;>
      simp [processInteraction, processInteractionTry, mockAdvancedResponse]

/-- Witness for C3 at a concrete failing configuration (unconfigured client,
well-formed backend body). -/
theorem C3_backend_failure_clarify_witness :
    (processInteraction false (.rawJson none) "hello" none none 0).intent = .clarify
    ∧ (processInteraction false (.rawJson none) "hello" none none 0).confidence = 0
    ∧ (processInteraction false (.rawJson none) "hello" none none 0).actions = []
    ∧ (processInteraction false (.rawJson none) "hello" none none 0).clarification
        = some "Could you please try rephrasing your request? For example:\n• \"Add Sarah to my contacts\"\n• \"Remind me to call mom tomorrow\"\n• \"Schedule a text to John saying happy birthday\"" :=
  C3_backend_failure_clarify false (.rawJson none) "hello" none none 0 (Or.inl rfl)

/-- Counterexample to C7 as stated: with the backend unconfigured, a request
carrying the simulated-now override `valid 0` gets back
`usedCurrentDatetime = valid 999` (the system clock), not the override — so
the override is not echoed on the mock/fallback path. -/
theorem C7_counterexample :
    (processInteraction false (.rawJson none) "hi" none (some (.valid 0)) 999).usedCurrentDatetime
      = some (.valid 999)
    ∧ some (IsoStr.valid 999) ≠ some (IsoStr.valid 0) := by
  constructor
  · rfl
  · decide

/-- Claim C7 (corrected form). A truthy simulated-now override is authoritative
and echoed in `usedCurrentDatetime` on the configured backend-response paths of
`processInteraction` and `processReminderResponse` (including their
malformed-JSON fallbacks inside the `try`), and on those paths the result does
not depend on the system clock; on the unconfigured-client and caught-error
fallback paths, however, the system clock is used and echoed instead of the
override. -/
theorem C7_usedCurrentDatetime (p : Option ParsedMain) (q : Option ParsedReminder)
    (inputText context : String) (userTz : Option String) (ovr : IsoStr)
    (sysNowMs altNowMs : Int) (hovr : isoTruthy ovr = true) :
    (processInteraction true (.rawJson p) inputText userTz (some ovr) sysNowMs).usedCurrentDatetime
        = some ovr
    ∧ processInteraction true (.rawJson p) inputText userTz (some ovr) sysNowMs
        = processInteraction true (.rawJson p) inputText userTz (some ovr) altNowMs
    ∧ (processInteraction false (.rawJson p) inputText userTz (some ovr) sysNowMs).usedCurrentDatetime
        = some (.valid sysNowMs)
    ∧ (processInteraction true .threw inputText userTz (some ovr) sysNowMs).usedCurrentDatetime
        = some (.valid sysNowMs)
    ∧ (processInteraction true .rawEmpty inputText userTz (some ovr) sysNowMs).usedCurrentDatetime
        = some (.valid sysNowMs)
    ∧ (processReminderResponse true (.rawJson q) inputText context userTz (some ovr) sysNowMs).usedCurrentDatetime
        = some ovr
    ∧ processReminderResponse true (.rawJson q) inputText context userTz (some ovr) sysNowMs
        = processReminderResponse true (.rawJson q) inputText context userTz (some ovr) altNowMs
    ∧ (processReminderResponse false (.rawJson q) inputText context userTz (some ovr) sysNowMs).usedCurrentDatetime
        = some (.valid sysNowMs)
    ∧ (processReminderResponse true .threw inputText context userTz (some ovr) sysNowMs).usedCurrentDatetime
        = some (.valid sysNowMs)
    ∧ (processReminderResponse true .rawEmpty inputText context userTz (some ovr) sysNowMs).usedCurrentDatetime
        = some (.valid sysNowMs) := by
  refine ⟨?_, ?_, ?_, ?_, ?_, ?_, ?_, ?_, ?_, ?_⟩ <;>
    simp [processInteraction, processInteractionTry, processReminderResponse,
      processReminderResponseTry, orFalsyIso, hovr, nowIsoUtc, mockAdvancedResponse,
      mockReminderResponse]
  exact (parsedMain_note_update_fields _ _ _).2.2.2.2

/-- Witness for C7 at concrete inputs (override `valid 5`, system clock
`7` and `8`). -/
theorem C7_usedCurrentDatetime_witness :
    (processInteraction true (.rawJson none) "a" none (some (.valid 5)) 7).usedCurrentDatetime
        = some (.valid 5)
    ∧ (processInteraction false (.rawJson none) "a" none (some (.valid 5)) 7).usedCurrentDatetime
        = some (.valid 7) := by
  have h := C7_usedCurrentDatetime none none "a" "" none (.valid 5) 7 8 (by decide)
  exact ⟨h.1, h.2.2.1⟩

/-- JavaScript `a || b` on an optional string, as in
`reminderData.reminderType || 'general'`. -/
def orFalsyStr (o : Option String) (d : String) : String :=
  if jsStrTruthy o then o.getD "" else d

/-- Profile shape handed to `DatabaseService.createOrUpdateProfile`: the spread
of the original payload (`base`) plus the normalized list fields and the
timestamp the caller adds (`lastContactDate` on create, `updatedAt` on
update). -/
structure DbProfileData where
  base : ActionData
  tags : List String
  parents : List String
  kids : List String
  siblings : List String
  foodLikes : List String
  foodDislikes : List String
  interests : List String
  lastContactDate : Option IsoStr := none
  updatedAt : Option IsoStr := none
  deriving DecidableEq, Repr

/-- Audit row handed to `DatabaseService.addInteraction`
(`JSON.stringify(profileData)` is modelled by carrying the payload itself). -/
structure InteractionRow where
  profileId : Int
  description : String
  extractedData : ActionData
  createdAt : IsoStr
  deriving DecidableEq, Repr

/-- Reminder shape handed to `DatabaseService.createReminder`
(`scheduledFor` is `new Date(reminderData.scheduledFor)`, an instant or an
invalid date). -/
structure DbReminderRow where
  profileId : Option Int
  title : Option String
  description : Option String
  type : String
  scheduledFor : Option Int
  deriving DecidableEq, Repr

/-- Scheduled-text shape handed to `DatabaseService.createScheduledText`. -/
structure DbTextRow where
  profileId : Option Int
  phoneNumber : Option String
  message : Option String
  scheduledFor : Option Int
  deriving DecidableEq, Repr

/-- Committed side effects of the external collaborators: each successful
write appends its row (keyed by the id the collaborator returned). A call
that throws commits nothing. -/
structure World where
  profiles : List (Int × DbProfileData) := []
  interactions : List InteractionRow := []
  reminders : List (Int × DbReminderRow) := []
  reminderNotifIds : List (Int × String) := []
  texts : List (Int × DbTextRow) := []
  textNotifIds : List (Int × String) := []
  deriving DecidableEq, Repr

/-- The world before any dispatch. -/
def emptyWorld : World := {}

/-- Behaviour of the external collaborators: each field gives the outcome of
one call (`.ok` with the returned id, or `.error` modelling a thrown
rejection). Notification scheduling returns an optional notification id,
mirroring `result.id`. -/
structure Env where
  createOrUpdateProfileOutcome : DbProfileData → Except String Int
  addInteractionOutcome : InteractionRow → Except String Unit
  createReminderOutcome : DbReminderRow → Except String Int
  scheduleReminderOutcome : Int → Except String (Option String)
  updateReminderNotificationIdOutcome : Int → String → Except String Unit
  createScheduledTextOutcome : DbTextRow → Except String Int
  scheduleScheduledTextOutcome : Int → Except String (Option String)
  updateScheduledTextNotificationIdOutcome : Int → String → Except String Unit

/-- Embedding of `executeCreateProfile(profileData)`: attach the selected
image, normalize list fields with `|| []`, stamp `lastContactDate`, create the
profile, then record the companion audit interaction (raw input text plus
extracted payload). Either collaborator failure propagates. -/
def executeCreateProfile (env : Env) (inputText : String) (selectedImage : Option String)
    (sysNowMs : Int) (w : World) (profileData : ActionData) : World × Option String :=
  let profileData :=
    match selectedImage with
    | some uri => { profileData with photoUri := some uri }
    | none => profileData
  let dbProfileData : DbProfileData :=
    { base := profileData
      tags := profileData.tags.getD []
      parents := profileData.parents.getD []
      kids := profileData.kids.getD []
      siblings := profileData.siblings.getD []
      foodLikes := profileData.likes.getD []
      foodDislikes := profileData.dislikes.getD []
      interests := profileData.interests.getD []
      lastContactDate := some (nowIsoUtc sysNowMs) }
  match env.createOrUpdateProfileOutcome dbProfileData with
  | .error e => (w, some e)
  | .ok profileId =>
    let w := { w with profiles := w.profiles ++ [(profileId, dbProfileData)] }
    let row : InteractionRow :=
      { profileId := profileId
        description := inputText
        extractedData := profileData
        createdAt := nowIsoUtc sysNowMs }
    match env.addInteractionOutcome row with
    | .error e => (w, some e)
    | .ok _ => ({ w with interactions := w.interactions ++ [row] }, none)

/-- Embedding of `executeUpdateProfile(profileData)`: same normalization with
`updatedAt` instead of `lastContactDate`, no image attachment and no audit
row. -/
def executeUpdateProfile (env : Env) (sysNowMs : Int) (w : World)
    (profileData : ActionData) : World × Option String :=
  let dbProfileData : DbProfileData :=
    { base := profileData
      tags := profileData.tags.getD []
      parents := profileData.parents.getD []
      kids := profileData.kids.getD []
      siblings := profileData.siblings.getD []
      foodLikes := profileData.likes.getD []
      foodDislikes := profileData.dislikes.getD []
      interests := profileData.interests.getD []
      updatedAt := some (nowIsoUtc sysNowMs) }
  match env.createOrUpdateProfileOutcome dbProfileData with
  | .error e => (w, some e)
  | .ok profileId =>
    ({ w with profiles := w.profiles ++ [(profileId, dbProfileData)] }, none)

/-- Embedding of `executeCreateReminder(reminderData)`: persist the reminder
(failure propagates), then best-effort schedule a notification — a failure of
`scheduleReminder` or of `updateReminderNotificationId` is swallowed by the
inner `try`/`catch`, so the action still succeeds. -/
def executeCreateReminder (env : Env) (w : World) (reminderData : ActionData) :
    World × Option String :=
  let row : DbReminderRow :=
    { profileId := reminderData.profileId
      title := reminderData.title
      description := reminderData.description
      type := orFalsyStr reminderData.reminderType "general"
      scheduledFor := reminderData.scheduledFor.bind parseMs }
  match env.createReminderOutcome row with
  | .error e => (w, some e)
  | .ok reminderId =>
    let w := { w with reminders := w.reminders ++ [(reminderId, row)] }
    match env.scheduleReminderOutcome reminderId with
    | .error _ => (w, none)
    | .ok idOpt =>
      if jsStrTruthy idOpt then
        match env.updateReminderNotificationIdOutcome reminderId (idOpt.getD "") with
        | .error _ => (w, none)
        | .ok _ =>
          ({ w with reminderNotifIds := w.reminderNotifIds ++ [(reminderId, idOpt.getD "")] }, none)
      else (w, none)

/-- Embedding of `executeScheduleText(textData)`: persist the scheduled text
(failure propagates), then best-effort schedule its notification, failures
swallowed as for reminders. -/
def executeScheduleText (env : Env) (w : World) (textData : ActionData) :
    World × Option String :=
  let row : DbTextRow :=
    { profileId := textData.profileId
      phoneNumber := textData.phoneNumber
      message := textData.message
      scheduledFor := textData.scheduledFor.bind parseMs }
  match env.createScheduledTextOutcome row with
  | .error e => (w, some e)
  | .ok textId =>
    let w := { w with texts := w.texts ++ [(textId, row)] }
    match env.scheduleScheduledTextOutcome textId with
    | .error _ => (w, none)
    | .ok idOpt =>
      if jsStrTruthy idOpt then
        match env.updateScheduledTextNotificationIdOutcome textId (idOpt.getD "") with
        | .error _ => (w, none)
        | .ok _ =>
          ({ w with textNotifIds := w.textNotifIds ++ [(textId, idOpt.getD "")] }, none)
      else (w, none)

/-- Dispatch of one action by its `type` (the source `switch`; the `default`
branch only logs, and is unreachable under the typed action union). -/
def executeAction (env : Env) (inputText : String) (selectedImage : Option String)
    (sysNowMs : Int) (w : World) (a : Action) : World × Option String :=
  match a.type with
  | .create_profile => executeCreateProfile env inputText selectedImage sysNowMs w a.data
  | .update_profile => executeUpdateProfile env sysNowMs w a.data
  | .create_reminder => executeCreateReminder env w a.data
  | .schedule_text => executeScheduleText env w a.data

/-- Embedding of `executeActions(actions)`: process the batch in order; the
per-action `catch` rethrows, so the first failing dispatch aborts the rest
while the world keeps every effect committed so far. -/
def executeActions (env : Env) (inputText : String) (selectedImage : Option String)
    (sysNowMs : Int) (w : World) : List Action → World × Option String
  | [] => (w, none)
  | a :: rest =>
    match executeAction env inputText selectedImage sysNowMs w a with
    | (w1, none) => executeActions env inputText selectedImage sysNowMs w1 rest
    | (w1, some e) => (w1, some e)

/-- Claim C5 (confirmed). The executor processes an ordered batch strictly in
order: if the actions before `a` all dispatch successfully (reaching world
`w1`) and `a` is the first whose collaborator dispatch fails (with error `e`
and partial world `w2`), then the whole batch returns exactly `(w2, some e)` —
the failure is propagated to the caller, every remaining action is aborted
(the result does not depend on `post`), and the committed effects of the
earlier actions (already in `w1 ⊆ w2`) are not rolled back. -/
theorem C5_executeActions_fail_fast (env : Env) (inputText : String)
    (selectedImage : Option String) (sysNowMs : Int) (w w1 w2 : World)
    (pre post : List Action) (a : Action) (e : String)
    (h1 : executeActions env inputText selectedImage sysNowMs w pre = (w1, none))
    (h2 : executeAction env inputText selectedImage sysNowMs w1 a = (w2, some e)) :
    executeActions env inputText selectedImage sysNowMs w (pre ++ a :: post) = (w2, some e) := by
  induction pre generalizing w with
  | nil =>
    simp only [executeActions] at h1
    cases h1
    simp only [List.nil_append, executeActions, h2]
  | cons b bs ih =>
    simp only [executeActions] at h1 ⊢
    cases hb : executeAction env inputText selectedImage sysNowMs w b with
    | mk wb err =>
      cases err with
      | none =>
        rw [hb] at h1
        simp only [List.cons_append, executeActions, hb]
        exact ih wb h1
      | some eb =>
        rw [hb] at h1
        simp at h1

/-- Collaborator behaviour where every call succeeds (profile id 1, reminder
id 1, text id 1, no notification id returned). -/
def envAllOk : Env :=
  { createOrUpdateProfileOutcome := fun _ => .ok 1
    addInteractionOutcome := fun _ => .ok ()
    createReminderOutcome := fun _ => .ok 1
    scheduleReminderOutcome := fun _ => .ok none
    updateReminderNotificationIdOutcome := fun _ _ => .ok ()
    createScheduledTextOutcome := fun _ => .ok 1
    scheduleScheduledTextOutcome := fun _ => .ok none
    updateScheduledTextNotificationIdOutcome := fun _ _ => .ok () }

/-- Collaborator behaviour where the reminder collaborator rejects and
everything else succeeds. -/
def envReminderDbDown : Env :=
  { envAllOk with createReminderOutcome := fun _ => .error "reminder write failed" }

/-- CreateProfile action used in concrete batches. -/
def sarahProfileAction : Action :=
  { type := .create_profile
    data := { name := some "Sarah", relationship := some "friend" } }

/-- CreateReminder action used in concrete batches. -/
def callMomReminderAction : Action :=
  { type := .create_reminder
    data := { title := some "Call mom", scheduledFor := some (.valid 0) } }

/-- The world committed by dispatching `sarahProfileAction` alone from the
empty world under `envReminderDbDown` (profile row plus its audit interaction
row). -/
def sarahCommittedWorld : World :=
  (executeActions envReminderDbDown "met Sarah today" none 0 emptyWorld [sarahProfileAction]).1

/-- Witness for C5 at the spec example: in the batch
`[CreateProfile, CreateReminder]` with the reminder collaborator failing, the
profile side effect and its audit interaction entry remain committed, no
reminder is written, and the second action's failure is surfaced to the
caller. -/
theorem C5_executeActions_fail_fast_witness :
    executeActions envReminderDbDown "met Sarah today" none 0 emptyWorld
        [sarahProfileAction, callMomReminderAction]
      = (sarahCommittedWorld, some "reminder write failed")
    ∧ sarahCommittedWorld.profiles.length = 1
    ∧ sarahCommittedWorld.interactions.length = 1
    ∧ sarahCommittedWorld.reminders = [] := by
  refine ⟨?_, by decide, by decide, by decide⟩
  exact C5_executeActions_fail_fast envReminderDbDown "met Sarah today" none 0 emptyWorld
    sarahCommittedWorld sarahCommittedWorld [sarahProfileAction] [] callMomReminderAction
    "reminder write failed" (by decide) (by decide)

/-- The conversation state of `AddInteractionScreen`
(`'ready' | 'awaiting_confirmation'`). -/
inductive ConvState where
  | ready
  | awaiting_confirmation
  deriving DecidableEq, Repr

/-- Role tag of a chat message (`type: 'user' | 'ai'`). -/
inductive MsgRole where
  | user
  | ai
  deriving DecidableEq, Repr

/-- One chat bubble (`{ type, text }`). -/
structure ChatMsg where
  type : MsgRole
  text : String
  deriving DecidableEq, Repr

/-- The component-local state of `AddInteractionScreen` that the submit flow
reads and writes. -/
structure Session where
  conversationState : ConvState
  pendingActions : Option ParsedMain
  chatMessages : List ChatMsg
  inputText : String
  selectedImage : Option String
  deriving DecidableEq, Repr

/-- The deferred `setTimeout` reset a submit schedules: after a high-confidence
execution only input, chat and image are cleared; after a confirmed execution
the conversation state and pending actions are reset as well. -/
inductive TimerReq where
  | clearAfterExecute
  | resetAfterConfirm
  deriving DecidableEq, Repr

/-- Immediate result of one `handleSubmit` call: the component state when the
call returns, the world of committed collaborator effects, and the deferred
reset, if one was scheduled. -/
structure SubmitResult where
  session : Session
  world : World
  timer : Option TimerReq
  deriving DecidableEq, Repr

/-- Applying the deferred reset when its timer fires. -/
def fireTimer (t : TimerReq) (s : Session) : Session :=
  match t with
  | .clearAfterExecute =>
    { s with inputText := "", chatMessages := [], selectedImage := none }
  | .resetAfterConfirm =>
    { s with conversationState := .ready, pendingActions := none,
             inputText := "", chatMessages := [], selectedImage := none }

/-- Rendering of an optional string in a template literal (JavaScript prints
`null` for a missing value). -/
def jsShowOptStr (o : Option String) : String := o.getD "null"

/-- Stand-in for `new Date(x).toLocaleDateString()` in the action summary: a
deterministic rendering keyed by the parsed instant (locale formatting is
abstracted; no claim inspects the rendered date text). -/
def localeDateString (o : Option IsoStr) : String :=
  match o with
  | some (.valid ms) => toString ms
  | _ => "Invalid Date"

/-- Embedding of `generateActionSummary(actions)`: one bullet line per action,
joined with newlines. -/
def generateActionSummary (actions : List Action) : String :=
  String.intercalate "\n" (actions.map fun action =>
    match action.type with
    | .create_profile =>
      "• Add " ++ jsShowOptStr action.data.name ++ " to your "
        ++ jsShowOptStr action.data.relationship ++ " contacts"
        ++ (if jsStrTruthy action.data.job then " (" ++ action.data.job.getD "" ++ ")" else "")
    | .update_profile =>
      "• Update " ++ jsShowOptStr action.data.name ++ "\x27s profile information"
    | .create_reminder =>
      "• Create reminder: \"" ++ jsShowOptStr action.data.title ++ "\" for "
        ++ localeDateString action.data.scheduledFor
    | .schedule_text =>
      "• Schedule text to " ++ jsShowOptStr action.data.phoneNumber ++ ": \""
        ++ jsShowOptStr action.data.message ++ "\" for "
        ++ localeDateString action.data.scheduledFor)

/-- The confidence threshold literal `0.7` of `handleSubmit`, written in the
normal form `7/10` that the kernel evaluates directly. -/
def confidenceThreshold : Rat := ⟨7, 10, by norm_num, by norm_num⟩

/-- The threshold constant is the rational `7/10`, i.e. `0.7`. -/
theorem confidenceThreshold_eq : confidenceThreshold = 7/10 := by
  rw [confidenceThreshold, Rat.mk'_eq_divInt, Rat.divInt_eq_div]
  norm_num

/-- Error-message selection of the `catch` block in `handleSubmit`, keyed on
substrings of `error.message`. -/
def pickErrorMessage (msg : String) : String :=
  if jsIncludes msg "No response from OpenAI" then
    "I didn\x27t receive a response from the AI service. Please check your internet connection and try again."
  else if jsIncludes msg "JSON Parse error" || jsIncludes msg "Failed to parse AI response" then
    "I had trouble understanding the AI response. Please try rephrasing your request or be more specific."
  else if jsIncludes msg "API key" then
    "There\x27s an issue with the AI service configuration. Please check that your OpenAI API key is properly set up."
  else if jsIncludes msg "AI processing failed" then
    "The AI service encountered an error. Please try again with a simpler request."
  else
    "Sorry, I encountered an error processing your request."

/-- The `catch` block of `handleSubmit`: append the user message and the chosen
error message, clear the input; conversation state and pending actions are left
untouched. -/
def catchBranch (s : Session) (w : World) (e : String) : SubmitResult :=
  { session :=
      { s with
        chatMessages := s.chatMessages
          ++ [{ type := .user, text := s.inputText },
              { type := .ai,
                text := pickErrorMessage e
                  ++ " You can also use the manual tabs to add profiles, reminders, or schedule texts directly." }]
        inputText := "" }
    world := w
    timer := none }

/-- Embedding of `handleSubmit` from `app/(tabs)/add.tsx`. In the `ready`
state it runs the interpreter (`AIService.processInteraction(inputText)`, with
no timezone or simulated-now argument) and branches on intent and confidence;
in `awaiting_confirmation` it classifies the input by keyword, checking the
affirmative set before the negative one. Reading `pendingActions.actions` when
`pendingActions` is null throws a `TypeError` that the enclosing `catch`
absorbs. -/
def handleSubmit (openaiConfigured : Bool) (outcome : CallOutcome) (env : Env)
    (w : World) (s : Session) (sysNowMs : Int) : SubmitResult :=
  if (jsTrim s.inputText).isEmpty then
    { session := s, world := w, timer := none }
  else
    match s.conversationState with
    | .ready =>
      let aiResponse := processInteraction openaiConfigured outcome s.inputText none none sysNowMs
      let s1 := { s with chatMessages := s.chatMessages ++ [{ type := .user, text := s.inputText }] }
      if aiResponse.intent = .clarify then
        { session :=
            { s1 with
              chatMessages := s1.chatMessages
                ++ [{ type := .ai,
                      text := aiResponse.response ++ "\n\n" ++ jsShowOptStr aiResponse.clarification }]
              inputText := "" }
          world := w
          timer := none }
      else if aiResponse.confidence < confidenceThreshold then
        { session :=
            { s1 with
              pendingActions := some aiResponse
              conversationState := .awaiting_confirmation
              chatMessages := s1.chatMessages
                ++ [{ type := .ai,
                      text := "I think I understand, but let me confirm:\n\n"
                        ++ generateActionSummary aiResponse.actions
                        ++ "\n\nIs this correct? Say \x27yes\x27 to proceed or \x27no\x27 to try again." }]
              inputText := "" }
          world := w
          timer := none }
      else
        match executeActions env s1.inputText s1.selectedImage sysNowMs w aiResponse.actions with
        | (w1, none) =>
          { session :=
              { s1 with
                chatMessages := s1.chatMessages ++ [{ type := .ai, text := aiResponse.response }] }
            world := w1
            timer := some .clearAfterExecute }
        | (w1, some e) => catchBranch s1 w1 e
    | .awaiting_confirmation =>
      let lowerInput := jsTrim (jsToLower s.inputText)
      if jsIncludes lowerInput "yes" || jsIncludes lowerInput "correct" || jsIncludes lowerInput "right" then
        match s.pendingActions with
        | none => catchBranch s w "TypeError: Cannot read properties of null"
        | some pending =>
          match executeActions env s.inputText s.selectedImage sysNowMs w pending.actions with
          | (w1, none) =>
            { session :=
                { s with
                  chatMessages := s.chatMessages
                    ++ [{ type := .user, text := s.inputText },
                        { type := .ai, text := "Perfect! I\x27ve completed those actions for you." }] }
              world := w1
              timer := some .resetAfterConfirm }
          | (w1, some e) => catchBranch s w1 e
      else if jsIncludes lowerInput "no" || jsIncludes lowerInput "wrong" || jsIncludes lowerInput "incorrect" then
        { session :=
            { s with
              chatMessages := s.chatMessages
                ++ [{ type := .user, text := s.inputText },
                    { type := .ai,
                      text := "No problem! Please tell me again what you\x27d like me to do, and I\x27ll try to understand better." }]
              conversationState := .ready
              pendingActions := none
              inputText := "" }
          world := w
          timer := none }
      else
        { session :=
            { s with
              chatMessages := s.chatMessages
                ++ [{ type := .user, text := s.inputText },
                    { type := .ai,
                      text := "I\x27m not sure if that\x27s a yes or no. Please say \"yes\" to proceed or \"no\" to start over." }]
              inputText := "" }
          world := w
          timer := none }

/-- Claim C4 (confirmed). In the `ready` state with nonempty input, for a
non-`clarify` interpretation the confirmation decision uses the 0.7 threshold
inclusively: with confidence at least 7/10 the result's actions are dispatched
to the executor at once and the state stays `ready` with pending actions
untouched; with confidence strictly below 7/10 nothing is executed, the result
is stored as pending, the state becomes `awaiting_confirmation`, and the chat
gains the per-action summary prompt. -/
theorem C4_confidence_threshold (openaiConfigured : Bool) (outcome : CallOutcome) (env : Env)
    (w : World) (s : Session) (sysNowMs : Int)
    (hready : s.conversationState = .ready)
    (hinput : (jsTrim s.inputText).isEmpty = false)
    (hnc : (processInteraction openaiConfigured outcome s.inputText none none sysNowMs).intent ≠ .clarify) :
    (confidenceThreshold ≤ (processInteraction openaiConfigured outcome s.inputText none none sysNowMs).confidence →
      (handleSubmit openaiConfigured outcome env w s sysNowMs).world
        = (executeActions env s.inputText s.selectedImage sysNowMs w
            (processInteraction openaiConfigured outcome s.inputText none none sysNowMs).actions).1
      ∧ (handleSubmit openaiConfigured outcome env w s sysNowMs).session.conversationState = .ready
      ∧ (handleSubmit openaiConfigured outcome env w s sysNowMs).session.pendingActions = s.pendingActions)
    ∧ ((processInteraction openaiConfigured outcome s.inputText none none sysNowMs).confidence < confidenceThreshold →
      (handleSubmit openaiConfigured outcome env w s sysNowMs).world = w
      ∧ (handleSubmit openaiConfigured outcome env w s sysNowMs).session.conversationState
          = .awaiting_confirmation
      ∧ (handleSubmit openaiConfigured outcome env w s sysNowMs).session.pendingActions
          = some (processInteraction openaiConfigured outcome s.inputText none none sysNowMs)
      ∧ (handleSubmit openaiConfigured outcome env w s sysNowMs).session.chatMessages
          = s.chatMessages
            ++ [{ type := .user, text := s.inputText },
                { type := .ai,
                  text := "I think I understand, but let me confirm:\n\n"
                    ++ generateActionSummary
                        (processInteraction openaiConfigured outcome s.inputText none none sysNowMs).actions
                    ++ "\n\nIs this correct? Say \x27yes\x27 to proceed or \x27no\x27 to try again." }]) := by
  constructor
  · intro hge
    have hlt : ¬ ((processInteraction openaiConfigured outcome s.inputText none none sysNowMs).confidence
        < confidenceThreshold) := not_lt.mpr hge
    cases hex : executeActions env s.inputText s.selectedImage sysNowMs w
        (processInteraction openaiConfigured outcome s.inputText none none sysNowMs).actions with
    | mk w1 err =>
      cases err <;>
        simp [handleSubmit, hinput, hready, hnc, hlt, hex, catchBranch]
  · intro hlt
    simp [handleSubmit, hinput, hready, hnc, hlt]

/-- A `ready` session about to submit its input. -/
def readySession : Session :=
  { conversationState := .ready
    pendingActions := none
    chatMessages := []
    inputText := "add sarah to my contacts"
    selectedImage := none }

/-- Backend interpretation with confidence exactly 0.7, the threshold
boundary. -/
def highConfResult : ParsedMain :=
  { intent := .create_profile
    confidence := confidenceThreshold
    actions := [sarahProfileAction]
    response := "Added Sarah to your contacts." }

/-- Witness for C4 at confidence exactly `0.7`: the boundary value executes
immediately and the state stays `ready`. -/
theorem C4_confidence_threshold_witness :
    (confidenceThreshold ≤ (processInteraction true (.rawJson (some highConfResult))
        readySession.inputText none none 0).confidence)
    ∧ ((handleSubmit true (.rawJson (some highConfResult)) envAllOk emptyWorld readySession 0).world
        = (executeActions envAllOk readySession.inputText readySession.selectedImage 0 emptyWorld
            (processInteraction true (.rawJson (some highConfResult)) readySession.inputText none none 0).actions).1
      ∧ (handleSubmit true (.rawJson (some highConfResult)) envAllOk emptyWorld readySession 0).session.conversationState
          = .ready
      ∧ (handleSubmit true (.rawJson (some highConfResult)) envAllOk emptyWorld readySession 0).session.pendingActions
          = readySession.pendingActions) :=
  ⟨by decide,
   (C4_confidence_threshold true (.rawJson (some highConfResult)) envAllOk emptyWorld readySession 0
      rfl (by decide) (by decide)).1 (by decide)⟩

/-- Claim C8 (corrected form). In `awaiting_confirmation`, an input containing
a negative keyword (`no`, `wrong`, `incorrect`) and none of the affirmative
keywords (`yes`, `correct`, `right`) sends the state back to `ready` and
clears the pending actions without executing anything. (The original claim
quantified over all inputs containing a negative keyword; those also containing
an affirmative keyword hit the affirmative branch first and execute instead.) -/
theorem C8_negative_cancels (openaiConfigured : Bool) (outcome : CallOutcome) (env : Env)
    (w : World) (s : Session) (sysNowMs : Int)
    (hawait : s.conversationState = .awaiting_confirmation)
    (hinput : (jsTrim s.inputText).isEmpty = false)
    (hnoaff : (jsIncludes (jsTrim (jsToLower s.inputText)) "yes"
        || jsIncludes (jsTrim (jsToLower s.inputText)) "correct"
        || jsIncludes (jsTrim (jsToLower s.inputText)) "right") = false)
    (hneg : (jsIncludes (jsTrim (jsToLower s.inputText)) "no"
        || jsIncludes (jsTrim (jsToLower s.inputText)) "wrong"
        || jsIncludes (jsTrim (jsToLower s.inputText)) "incorrect") = true) :
    (handleSubmit openaiConfigured outcome env w s sysNowMs).session.conversationState = .ready
    ∧ (handleSubmit openaiConfigured outcome env w s sysNowMs).session.pendingActions = none
    ∧ (handleSubmit openaiConfigured outcome env w s sysNowMs).world = w := by
  simp [handleSubmit, hinput, hawait, hnoaff, hneg]

/-- A backend interpretation stored as pending while awaiting confirmation. -/
def pendingLow : ParsedMain :=
  { intent := .create_profile
    confidence := ⟨1, 2, by norm_num, by norm_num⟩
    actions := [sarahProfileAction]
    response := "Added." }

/-- Session awaiting confirmation whose input contains the negative keyword
`no` and also the affirmative keyword `right` (inside `not right`). -/
def negAwaitSession : Session :=
  { conversationState := .awaiting_confirmation
    pendingActions := some pendingLow
    chatMessages := []
    inputText := "no, that\x27s not right"
    selectedImage := none }

/-- Witness for C8 with input `nope that\x27s wrong`: negative keywords present,
affirmative keywords absent, so the pending actions are discarded unexecuted. -/
theorem C8_negative_cancels_witness :
    (handleSubmit true (.rawJson none) envAllOk emptyWorld
        { negAwaitSession with inputText := "nope that\x27s wrong" } 0).session.conversationState = .ready
    ∧ (handleSubmit true (.rawJson none) envAllOk emptyWorld
        { negAwaitSession with inputText := "nope that\x27s wrong" } 0).session.pendingActions = none
    ∧ (handleSubmit true (.rawJson none) envAllOk emptyWorld
        { negAwaitSession with inputText := "nope that\x27s wrong" } 0).world = emptyWorld :=
  C8_negative_cancels true (.rawJson none) envAllOk emptyWorld
    { negAwaitSession with inputText := "nope that\x27s wrong" } 0
    rfl (by decide) (by decide) (by decide)

/-- Counterexample to C8 as stated: the input `no, that\x27s not right` contains
the negative keyword `no`, yet because it also contains `right` the affirmative
branch fires first — the state stays `awaiting_confirmation`, the pending
actions are not cleared, and the pending profile action is executed (the world
gains a profile row). -/
theorem C8_counterexample :
    jsIncludes (jsTrim (jsToLower negAwaitSession.inputText)) "no" = true
    ∧ (handleSubmit true (.rawJson none) envAllOk emptyWorld negAwaitSession 0).session.conversationState
        = .awaiting_confirmation
    ∧ (handleSubmit true (.rawJson none) envAllOk emptyWorld negAwaitSession 0).session.pendingActions ≠ none
    ∧ (handleSubmit true (.rawJson none) envAllOk emptyWorld negAwaitSession 0).world ≠ emptyWorld := by
  decide

/-- Claim C10 (confirmed). In `awaiting_confirmation`, the affirmative-keyword
check runs before the negative one: any input containing an affirmative keyword
(even alongside a negative keyword, as in `no, that\x27s not right`) executes the
stored pending actions as a confirmation, and on success schedules the
post-confirmation reset. -/
theorem C10_affirmative_precedence (openaiConfigured : Bool) (outcome : CallOutcome) (env : Env)
    (w : World) (s : Session) (sysNowMs : Int) (p : ParsedMain)
    (hawait : s.conversationState = .awaiting_confirmation)
    (hpend : s.pendingActions = some p)
    (hinput : (jsTrim s.inputText).isEmpty = false)
    (haff : (jsIncludes (jsTrim (jsToLower s.inputText)) "yes"
        || jsIncludes (jsTrim (jsToLower s.inputText)) "correct"
        || jsIncludes (jsTrim (jsToLower s.inputText)) "right") = true)
    (_hneg : (jsIncludes (jsTrim (jsToLower s.inputText)) "no"
        || jsIncludes (jsTrim (jsToLower s.inputText)) "wrong"
        || jsIncludes (jsTrim (jsToLower s.inputText)) "incorrect") = true) :
    (handleSubmit openaiConfigured outcome env w s sysNowMs).world
      = (executeActions env s.inputText s.selectedImage sysNowMs w p.actions).1
    ∧ ((executeActions env s.inputText s.selectedImage sysNowMs w p.actions).2 = none →
        (handleSubmit openaiConfigured outcome env w s sysNowMs).timer = some .resetAfterConfirm) := by
  cases hex : executeActions env s.inputText s.selectedImage sysNowMs w p.actions with
  | mk w1 err =>
    cases err <;> simp [handleSubmit, hinput, hawait, haff, hpend, hex, catchBranch]

/-- Witness for C10 with input `no, that\x27s not right`: both keyword sets
match, the pending profile action is executed and the confirmation reset is
scheduled. -/
theorem C10_affirmative_precedence_witness :
    (handleSubmit true (.rawJson none) envAllOk emptyWorld negAwaitSession 0).world
      = (executeActions envAllOk negAwaitSession.inputText negAwaitSession.selectedImage 0 emptyWorld
          pendingLow.actions).1
    ∧ ((executeActions envAllOk negAwaitSession.inputText negAwaitSession.selectedImage 0 emptyWorld
          pendingLow.actions).2 = none →
        (handleSubmit true (.rawJson none) envAllOk emptyWorld negAwaitSession 0).timer
          = some .resetAfterConfirm) :=
  C10_affirmative_precedence true (.rawJson none) envAllOk emptyWorld negAwaitSession 0 pendingLow
    rfl rfl (by decide) (by decide) (by decide)

/-- Backend interpretation for the C2 failing input: high confidence, a
profile action with an empty name and a reminder two days in the past. -/
def c2BackendResult : ParsedMain :=
  { intent := .multi_action
    confidence := ⟨9, 10, by norm_num, by norm_num⟩
    actions :=
      [{ type := .create_profile, data := { name := some "" } },
       { type := .create_reminder,
         data := { title := some "Call mom", scheduledFor := some (.valid 0) } }]
    response := "Done." }

/-- Ready session submitting the C2 failing input. -/
def c2Session : Session :=
  { conversationState := .ready
    pendingActions := none
    chatMessages := []
    inputText := "met someone"
    selectedImage := none }

/-- Claim C2 (code bug, evaluated at the failing input). With `nowUtc`
`172800000` (two days after epoch) and a backend result containing a profile
action with name `""` and a reminder at instant `0`, the post-processor bumps
the reminder only to `86400000` — still not in the future — and `handleSubmit`
dispatches both actions: the committed world holds a profile row with an empty
name (no name validation ran before dispatch) and a reminder row whose
`scheduledFor` is `86400000 ≤ 172800000`, contradicting the stated invariant. -/
theorem C2_invariant_violated :
    ((handleSubmit true (.rawJson (some c2BackendResult)) envAllOk emptyWorld c2Session
        172800000).world.profiles.map (fun pr => pr.2.base.name)) = [some ""]
    ∧ ((handleSubmit true (.rawJson (some c2BackendResult)) envAllOk emptyWorld c2Session
        172800000).world.reminders.map (fun r => r.2.scheduledFor)) = [some 86400000]
    ∧ (86400000 : Int) ≤ 172800000 := by
  decide

end ARMi
